import Mathlib

/-!
Formal model of the PSA animation importer/exporter
(`io_scene_psk_psa/psa/importer.py` and `io_scene_psk_psa/psa/exporter.py`).

Quaternions and vectors are modelled over `ℚ`.  The `mathutils` operations
used by the source are embedded as follows:

* `Quaternion.rotate(other)` composes rotations with `other` on the left
  (`self := other * self`), written here as `Quat.rotateBy self other`.
* `Vector.rotate(q)` applies the rotation `q` to the vector
  (`v := q * v * q.conjugated`), written here as `Vec3.rotateBy v q`.
* Python `str.lower()` is modelled as a per-character case fold on the
  string's character list (`py_lower`).
* Python exceptions (`ValueError` from `list.index`, `ValueError` from an
  unknown FPS source) are modelled with `Option`/`Except`/an `error` flag.
-/

structure Vec3 where
  x : ℚ
  y : ℚ
  z : ℚ
deriving DecidableEq

def Vec3.sub (a b : Vec3) : Vec3 :=
  ⟨a.x - b.x, a.y - b.y, a.z - b.z⟩

instance : Sub Vec3 :=
  ⟨Vec3.sub⟩

instance : Inhabited Vec3 :=
  ⟨⟨0, 0, 0⟩⟩

structure Quat where
  w : ℚ
  x : ℚ
  y : ℚ
  z : ℚ
deriving DecidableEq

/-- Hamilton product of two quaternions. -/
def Quat.mul (a b : Quat) : Quat :=
  ⟨a.w * b.w - a.x * b.x - a.y * b.y - a.z * b.z,
   a.w * b.x + a.x * b.w + a.y * b.z - a.z * b.y,
   a.w * b.y - a.x * b.z + a.y * b.w + a.z * b.x,
   a.w * b.z + a.x * b.y - a.y * b.x + a.z * b.w⟩

/-- `mathutils.Quaternion.conjugated()`. -/
def Quat.conjugated (q : Quat) : Quat :=
  ⟨q.w, -q.x, -q.y, -q.z⟩

def Quat.normSq (q : Quat) : ℚ :=
  q.w * q.w + q.x * q.x + q.y * q.y + q.z * q.z

/-- `mathutils.Quaternion.inverted()`: conjugate divided by the squared norm. -/
def Quat.inverse (q : Quat) : Quat :=
  ⟨q.w / q.normSq, -q.x / q.normSq, -q.y / q.normSq, -q.z / q.normSq⟩

/-- `self.rotate(other)` from `mathutils`: compose with `other` on the left. -/
def Quat.rotateBy (self other : Quat) : Quat :=
  Quat.mul other self

instance : Inhabited Quat :=
  ⟨⟨1, 0, 0, 0⟩⟩

/-- `mathutils.Vector.rotate(q)`: apply the rotation `q` to the vector. -/
def Vec3.rotateBy (v : Vec3) (q : Quat) : Vec3 :=
  let p := Quat.mul (Quat.mul q ⟨0, v.x, v.y, v.z⟩) (Quat.conjugated q)
  ⟨p.x, p.y, p.z⟩

/-- Decode-side intermediate bone record (`ImportBone` in `importer.py`).
Only the fields consumed by `_calculate_fcurve_data` are modelled; the
parent link stores the parent bone's name (`none` for conversion roots). -/
structure ImportBone where
  parent : Option String
  original_location : Vec3
  original_rotation : Quat
  post_rotation : Quat

/-- `_calculate_fcurve_data` from `importer.py` (lines 43-58): convert one
raw world-space key `(key_rotation, key_location)` into the target bone's
local space. -/
def calculate_fcurve_data (import_bone : ImportBone) (key_rotation : Quat)
    (key_location : Vec3) : Quat × Vec3 :=
  let q1 := Quat.rotateBy import_bone.post_rotation import_bone.original_rotation
  let q2 :=
    match import_bone.parent with
    | none => Quat.rotateBy import_bone.post_rotation (Quat.conjugated key_rotation)
    | some _ => Quat.rotateBy import_bone.post_rotation key_rotation
  let quat := Quat.rotateBy q1 (Quat.conjugated q2)
  let loc := Vec3.rotateBy (key_location - import_bone.original_location)
    (Quat.conjugated import_bone.post_rotation)
  (quat, loc)

/-- One bone of the target armature: its name, the index of its parent bone
in the armature's bone list (`none` for a root), and its armature-space
bind transform (`matrix_local` decomposed into translation and rotation). -/
structure ArmatureBone where
  name : String
  parent : Option Nat
  translation : Vec3
  rotation : Quat
deriving DecidableEq

instance : Inhabited ArmatureBone :=
  ⟨⟨"", none, default, default⟩⟩

/-- Python `str.lower()`, modelled as a per-character case fold. -/
def py_lower (s : String) : String :=
  String.mk (s.data.map Char.toLower)

/-- Name comparison used by `_get_armature_bone_index_for_psa_bone`: case
folded under `CASE_INSENSITIVE`, byte equality under every other mode. -/
def bones_match (bone_mapping_mode : String) (armature_bone_name psa_bone_name : String) : Bool :=
  if bone_mapping_mode = "CASE_INSENSITIVE" then
    py_lower armature_bone_name == py_lower psa_bone_name
  else
    armature_bone_name == psa_bone_name

/-- First index `≥ i` (in enumeration order) whose element satisfies `p`. -/
def find_idx_from (p : String → Bool) : List String → Nat → Option Nat
  | [], _ => none
  | t :: rest, i => if p t then some i else find_idx_from p rest (i + 1)

/-- `_get_armature_bone_index_for_psa_bone` from `importer.py` (lines 66-80):
scan the armature bone names in order and return the first index matching
under the mode, or `none` when there is no match. -/
def get_armature_bone_index_for_psa_bone (psa_bone_name : String)
    (armature_bone_names : List String) (bone_mapping_mode : String) : Option Nat :=
  find_idx_from (fun n => bones_match bone_mapping_mode n psa_bone_name) armature_bone_names 0

/-- Python `list.index(x)` on a list of strings: index of the first
byte-equal element; `none` models the raised `ValueError`. -/
def py_list_index (l : List String) (x : String) : Option Nat :=
  find_idx_from (fun n => n == x) l 0

/-- Lookup in an insertion-ordered association list (a Python `dict` whose
keys are never overwritten). -/
def dict_lookup (k : Nat) : List (Nat × Nat) → Option Nat
  | [] => none
  | (a, b) :: rest => if a = k then some b else dict_lookup k rest

/-- State built by the bone-mapping loop of `import_psa` (lines 89-108). -/
structure BoneMappingState where
  psa_to_armature : List (Nat × Nat)
  armature_to_psa : List (Nat × Nat)
  psa_bone_names : List String
  duplicate_mappings : List (Nat × Nat × Nat)
  error : Bool
deriving DecidableEq

def initial_scan_state : BoneMappingState :=
  ⟨[], [], [], [], false⟩

/-- One iteration of the bone-mapping loop of `import_psa` (lines 95-108)
for the PSA bone at index `i` with decoded name `nm`.  Note line 101 of the
source records `armature_bone_names.index(psa_bone_name)` — an exact-match
lookup that raises `ValueError` when the name is not byte-present — rather
than the matched index; a raised `ValueError` is modelled by the `error`
flag, which freezes the state. -/
def scan_step (armature_bone_names : List String) (bone_mapping_mode : String)
    (i : Nat) (nm : String) (st : BoneMappingState) : BoneMappingState :=
  if st.error then st
  else
    match get_armature_bone_index_for_psa_bone nm armature_bone_names bone_mapping_mode with
    | some armature_bone_index =>
      match dict_lookup armature_bone_index st.armature_to_psa with
      | none =>
        match py_list_index armature_bone_names nm with
        | some exact_index =>
          { st with
            psa_to_armature := st.psa_to_armature ++ [(i, exact_index)],
            armature_to_psa := st.armature_to_psa ++ [(armature_bone_index, i)],
            psa_bone_names := st.psa_bone_names ++ [armature_bone_names.getD armature_bone_index ""] }
        | none => { st with error := true }
      | some mapped_psa_bone_index =>
        { st with
          duplicate_mappings := st.duplicate_mappings ++ [(i, armature_bone_index, mapped_psa_bone_index)],
          psa_bone_names := st.psa_bone_names ++ [armature_bone_names.getD armature_bone_index ""] }
    | none => { st with psa_bone_names := st.psa_bone_names ++ [nm] }

def scan_bones (armature_bone_names : List String) (bone_mapping_mode : String) :
    Nat → List String → BoneMappingState → BoneMappingState
  | _, [], st => st
  | i, nm :: rest, st =>
    scan_bones armature_bone_names bone_mapping_mode (i + 1) rest
      (scan_step armature_bone_names bone_mapping_mode i nm st)

/-- The whole bone-mapping loop of `import_psa`, run over the decoded PSA
bone names. -/
def run_bone_mapping_scan (psa_bone_names armature_bone_names : List String)
    (bone_mapping_mode : String) : BoneMappingState :=
  scan_bones armature_bone_names bone_mapping_mode 0 psa_bone_names initial_scan_state

/-- The entry appended to `psa_bone_names` for one PSA bone: the matched
armature bone's name when a match exists, the PSA name otherwise. -/
def entry_name (armature_bone_names : List String) (bone_mapping_mode : String)
    (nm : String) : String :=
  match get_armature_bone_index_for_psa_bone nm armature_bone_names bone_mapping_mode with
  | some t => armature_bone_names.getD t ""
  | none => nm

/-- `sorted(set(psa_bone_names).difference(set(armature_bone_names)))` from
`import_psa` (lines 119-124). -/
def missing_bone_names (st : BoneMappingState) (armature_bone_names : List String) : List String :=
  List.insertionSort (fun a b => a ≤ b)
    ((st.psa_bone_names.filter (fun n => decide (n ∉ armature_bone_names))).dedup)

/-- The two non-fatal warning categories produced by the mapping stage. -/
inductive MappingWarning where
  | duplicate (psa_bone_index armature_bone_index mapped_psa_bone_index : Nat)
  | missingBones (names : List String)
deriving DecidableEq

/-- Warning aggregation of `import_psa` (lines 110-125): one warning per
duplicate mapping, then a single missing-bones warning when the missing
set is non-empty. -/
def build_mapping_warnings (st : BoneMappingState) (armature_bone_names : List String) :
    List MappingWarning :=
  (st.duplicate_mappings.map (fun p => MappingWarning.duplicate p.1 p.2.1 p.2.2))
    ++ (if missing_bone_names st armature_bone_names = [] then []
        else [MappingWarning.missingBones (missing_bone_names st armature_bone_names)])

/-- The bone-mapping phase of `import_psa` as seen by its caller: a raised
`ValueError` aborts the import, otherwise the scan state and the collected
warnings are returned with a still-successful result. -/
def import_bone_mapping_phase (psa_bone_names armature_bone_names : List String)
    (bone_mapping_mode : String) : Except String (BoneMappingState × List MappingWarning) :=
  let st := run_bone_mapping_scan psa_bone_names armature_bone_names bone_mapping_mode
  if st.error then Except.error "ValueError"
  else Except.ok (st, build_mapping_warnings st armature_bone_names)

/-- Names of the armature bones claimed by some PSA bone. -/
def mapped_target_names (st : BoneMappingState) (armature_bone_names : List String) :
    List String :=
  st.armature_to_psa.map (fun q => armature_bone_names.getD q.1 "")

/-- Parent-link assignment of `import_psa` (lines 143-146): the link is set
exactly when the armature bone has a parent whose name occurs in
`psa_bone_names`. -/
def import_bone_link_parent (armature : List ArmatureBone) (psa_bone_names : List String)
    (armature_bone : ArmatureBone) : Option ArmatureBone :=
  match armature_bone.parent with
  | none => none
  | some pi =>
    if (armature.getD pi default).name ∈ psa_bone_names then some (armature.getD pi default)
    else none

/-- Bind-pose derivation for a conversion root (`import_psa` lines 154-157). -/
def bind_pose_root (b : ArmatureBone) : Vec3 × Quat × Quat :=
  (b.translation, b.rotation, Quat.conjugated b.rotation)

/-- Bind-pose derivation for a bone with a parent link (`import_psa` lines
148-153 and 157). -/
def bind_pose_non_root (b p : ArmatureBone) : Vec3 × Quat × Quat :=
  let original_location := Vec3.rotateBy (b.translation - p.translation) (Quat.conjugated p.rotation)
  let original_rotation := Quat.conjugated (Quat.rotateBy b.rotation (Quat.conjugated p.rotation))
  (original_location, original_rotation, Quat.conjugated original_rotation)

/-- The bind-pose transform triple `(original_location, original_rotation,
post_rotation)` computed by `import_psa` (lines 143-157) for one mapped
bone. -/
def compute_import_bone_transforms (armature : List ArmatureBone)
    (psa_bone_names : List String) (b : ArmatureBone) : Vec3 × Quat × Quat :=
  match import_bone_link_parent armature psa_bone_names b with
  | some p => bind_pose_non_root b p
  | none => bind_pose_root b

/-- Frame-rate resolution of `import_psa` (lines 178-187).  The `Except`
error models the raised `ValueError` for an unknown FPS source. -/
def calculate_target_fps (fps_source : String) (fps_custom sequence_fps scene_fps : ℚ) :
    Except String ℚ :=
  if fps_source = "CUSTOM" then Except.ok fps_custom
  else if fps_source = "SCENE" then Except.ok scene_fps
  else if fps_source = "SEQUENCE" then Except.ok sequence_fps
  else Except.error (String.append "Unknown FPS source: " fps_source)

/-- `keyframe_time_dilation = target_fps / sequence.fps` (line 189). -/
def keyframe_time_dilation (target_fps sequence_fps : ℚ) : ℚ :=
  target_fps / sequence_fps

/-- Keyframe timestamps written at line 232:
`[x * keyframe_time_dilation for x in range(sequence.frame_count)]`. -/
def keyframe_times (frame_count : Nat) (dilation : ℚ) : List ℚ :=
  (List.range frame_count).map (fun (x : Nat) => (x : ℚ) * dilation)

/-- The `(time, value)` pairs written into one f-curve via the interleaved
`fcurve_data` buffer (lines 229-241). -/
def fcurve_keyframe_points (frame_count : Nat) (dilation : ℚ) (values : List ℚ) :
    List (ℚ × ℚ) :=
  (keyframe_times frame_count dilation).zip values

/-- One item of the byte stream produced by `PsaExporter`: a section header
or one fixed-size payload record. -/
inductive StreamItem (R : Type) where
  | header (name : String) (data_size data_count : Nat)
  | datum (d : R)
deriving DecidableEq

/-- `PsaExporter.write_section` from `exporter.py` (lines 21-31).

Modelled from the spec: the `Section` record type lives in `psa/data.py`,
which is not part of the sources here; per the spec (sections 4.1 and 6) a
freshly constructed header carries zero size/count fields, which the
source only overwrites when both `data_type` and `data` are supplied.
`data_type_size` stands for `sizeof(data_type)`. -/
def write_section {R : Type} (name : String) (data_type_size : Option Nat)
    (data : Option (List R)) : List (StreamItem R) :=
  let size_count : Nat × Nat :=
    match data_type_size, data with
    | some sz, some d => (sz, d.length)
    | _, _ => (0, 0)
  [StreamItem.header name size_count.1 size_count.2]
    ++ (match data with
        | some d => d.map StreamItem.datum
        | none => [])

/-- The in-memory PSA handed to the exporter: bone records, sequence-info
records (the values of the `sequences` dict, in order) and key records. -/
structure PsaModel (R : Type) where
  bones : List R
  sequences : List R
  keys : List R

/-- `PsaExporter.export` from `exporter.py` (lines 33-38). -/
def psa_export {R : Type} (bone_size sequence_size key_size : Nat) (psa : PsaModel R) :
    List (StreamItem R) :=
  write_section "ANIMHEAD" none none
    ++ write_section "BONENAMES" (some bone_size) (some psa.bones)
    ++ write_section "ANIMINFO" (some sequence_size) (some psa.sequences)
    ++ write_section "ANIMKEYS" (some key_size) (some psa.keys)

/-- Invariant of the bone-mapping loop after processing the PSA bone names
in `processed`, for an error-free state. -/
structure ScanInv (armature_bone_names : List String) (bone_mapping_mode : String)
    (processed : List String) (st : BoneMappingState) : Prop where
  names_eq : st.psa_bone_names = processed.map (entry_name armature_bone_names bone_mapping_mode)
  arm_sound : ∀ p ∈ st.armature_to_psa, p.2 < processed.length ∧
    get_armature_bone_index_for_psa_bone (processed.getD p.2 "") armature_bone_names bone_mapping_mode = some p.1
  arm_complete : ∀ j, j < processed.length → ∀ t,
    get_armature_bone_index_for_psa_bone (processed.getD j "") armature_bone_names bone_mapping_mode = some t →
    ∃ s, (t, s) ∈ st.armature_to_psa
  psa_sound : ∀ p ∈ st.psa_to_armature, p.1 < processed.length ∧
    (get_armature_bone_index_for_psa_bone (processed.getD p.1 "") armature_bone_names bone_mapping_mode).isSome = true

lemma find_idx_from_eq_none {p : String → Bool} {l : List String} {i : Nat} :
    find_idx_from p l i = none ↔ ∀ x ∈ l, p x = false := by
  induction l generalizing i with
  | nil => simp [find_idx_from]
  | cons t rest ih =>
    by_cases h : p t
    · simp [find_idx_from, h]
    · simp only [find_idx_from, h, if_false, Bool.false_eq_true]
      rw [ih]
      simp [List.mem_cons]
      intro _
      simpa using h

lemma find_idx_from_shift (p : String → Bool) (l : List String) (i : Nat) :
    find_idx_from p l (i + 1) = Option.map (fun k => k + 1) (find_idx_from p l i) := by
  induction l generalizing i with
  | nil => simp [find_idx_from]
  | cons t rest ih => by_cases h : p t <;> simp [find_idx_from, h, ih]

lemma find_idx_from_zero_spec {p : String → Bool} {l : List String} {j : Nat}
    (h : find_idx_from p l 0 = some j) :
    j < l.length ∧ p (l.getD j "") = true ∧ ∀ k, k < j → p (l.getD k "") = false := by
  induction l generalizing j with
  | nil => simp [find_idx_from] at h
  | cons t rest ih =>
    by_cases hp : p t
    · rw [find_idx_from, if_pos hp] at h
      obtain rfl : j = 0 := by simpa using h.symm
      exact ⟨Nat.succ_pos _, by simpa [List.getD] using hp,
        fun k hk => absurd hk (Nat.not_lt_zero k)⟩
    · rw [find_idx_from, if_neg hp, find_idx_from_shift] at h
      cases hf : find_idx_from p rest 0 with
      | none => rw [hf] at h; simp at h
      | some j0 =>
        rw [hf] at h
        obtain rfl : j = j0 + 1 := by simpa using h.symm
        obtain ⟨h1, h2, h3⟩ := ih hf
        refine ⟨by simpa using Nat.succ_lt_succ h1, by simpa [List.getD] using h2, ?_⟩
        intro k hk
        cases k with
        | zero => simpa [List.getD] using hp
        | succ k0 => simpa [List.getD] using h3 k0 (by omega)

lemma find_idx_from_congr {p q : String → Bool} (h : ∀ x, p x = q x) :
    ∀ (l : List String) (i : Nat), find_idx_from p l i = find_idx_from q l i := by
  intro l
  induction l with
  | nil => intro i; rfl
  | cons t rest ih => intro i; rw [find_idx_from, find_idx_from, h t, ih]

lemma bones_match_refl (mode n : String) : bones_match mode n n = true := by
  unfold bones_match
  split <;> simp

lemma fm_some_spec {nm : String} {targets : List String} {mode : String} {t : Nat}
    (h : get_armature_bone_index_for_psa_bone nm targets mode = some t) :
    t < targets.length ∧ bones_match mode (targets.getD t "") nm = true ∧
      ∀ k, k < t → bones_match mode (targets.getD k "") nm = false :=
  find_idx_from_zero_spec h

lemma fm_none_not_mem {nm : String} {targets : List String} {mode : String}
    (h : get_armature_bone_index_for_psa_bone nm targets mode = none) : nm ∉ targets := by
  intro hmem
  have := find_idx_from_eq_none.mp h nm hmem
  simp [bones_match_refl] at this

lemma getD_append_lt {α : Type} (l l2 : List α) (d : α) (i : Nat) (h : i < l.length) :
    (l ++ l2).getD i d = l.getD i d := by
  induction l generalizing i with
  | nil => simp at h
  | cons a rest ih =>
    cases i with
    | zero => rfl
    | succ k =>
      have : k < rest.length := by simpa using h
      simpa [List.getD_cons_succ] using ih k this

lemma getD_append_self {α : Type} (l l2 : List α) (x : α) (d : α) :
    (l ++ x :: l2).getD l.length d = x := by
  induction l with
  | nil => rfl
  | cons a rest ih => simpa [List.getD_cons_succ] using ih

lemma getD_mem {α : Type} (l : List α) (d : α) (i : Nat) (h : i < l.length) :
    l.getD i d ∈ l := by
  induction l generalizing i with
  | nil => simp at h
  | cons a rest ih =>
    cases i with
    | zero => simp [List.getD]
    | succ k =>
      have : k < rest.length := by simpa using h
      simpa [List.getD_cons_succ] using List.mem_cons_of_mem a (ih k this)

lemma mem_exists_getD {α : Type} {m : α} {l : List α} (d : α) (h : m ∈ l) :
    ∃ j, j < l.length ∧ l.getD j d = m := by
  induction l with
  | nil => simp at h
  | cons a rest ih =>
    rcases List.mem_cons.mp h with rfl | hr
    · exact ⟨0, Nat.succ_pos _, rfl⟩
    · obtain ⟨j, hj, hg⟩ := ih hr
      exact ⟨j + 1, by simpa using Nat.succ_lt_succ hj, by simpa [List.getD_cons_succ] using hg⟩

lemma getD_map_name (armature : List ArmatureBone) (pi : Nat) (h : pi < armature.length) :
    (armature.map ArmatureBone.name).getD pi "" = (armature.getD pi default).name := by
  induction armature generalizing pi with
  | nil => simp at h
  | cons a rest ih =>
    cases pi with
    | zero => rfl
    | succ k =>
      have : k < rest.length := by simpa using h
      simpa [List.getD_cons_succ] using ih k this

lemma dict_lookup_mem {l : List (Nat × Nat)} {k v : Nat} (h : dict_lookup k l = some v) :
    (k, v) ∈ l := by
  induction l with
  | nil => simp [dict_lookup] at h
  | cons a rest ih =>
    rw [show dict_lookup k (a :: rest) = if a.1 = k then some a.2 else dict_lookup k rest from rfl] at h
    split at h
    · rename_i hk
      subst hk
      obtain rfl : v = a.2 := by simpa using h.symm
      rw [Prod.mk.eta]
      exact List.mem_cons_self a rest
    · exact List.mem_cons_of_mem _ (ih h)

lemma Quat.inverse_eq_conjugated {q : Quat} (h : q.normSq = 1) :
    q.inverse = q.conjugated := by
  simp [Quat.inverse, Quat.conjugated, h]

lemma scan_step_of_error {targets : List String} {mode : String} {i : Nat} {nm : String}
    {st : BoneMappingState} (h : st.error = true) :
    scan_step targets mode i nm st = st := by
  simp [scan_step, h]

lemma scan_step_of_nomatch {targets : List String} {mode : String} {i : Nat} {nm : String}
    {st : BoneMappingState} (h : st.error = false)
    (hfm : get_armature_bone_index_for_psa_bone nm targets mode = none) :
    scan_step targets mode i nm st = { st with psa_bone_names := st.psa_bone_names ++ [nm] } := by
  simp [scan_step, h, hfm]

lemma scan_step_of_claim {targets : List String} {mode : String} {i : Nat} {nm : String}
    {st : BoneMappingState} {a e : Nat} (h : st.error = false)
    (hfm : get_armature_bone_index_for_psa_bone nm targets mode = some a)
    (hl : dict_lookup a st.armature_to_psa = none)
    (hx : py_list_index targets nm = some e) :
    scan_step targets mode i nm st =
      { st with
        psa_to_armature := st.psa_to_armature ++ [(i, e)],
        armature_to_psa := st.armature_to_psa ++ [(a, i)],
        psa_bone_names := st.psa_bone_names ++ [targets.getD a ""] } := by
  simp [scan_step, h, hfm, hl, hx]

lemma scan_step_of_value_error {targets : List String} {mode : String} {i : Nat} {nm : String}
    {st : BoneMappingState} {a : Nat} (h : st.error = false)
    (hfm : get_armature_bone_index_for_psa_bone nm targets mode = some a)
    (hl : dict_lookup a st.armature_to_psa = none)
    (hx : py_list_index targets nm = none) :
    scan_step targets mode i nm st = { st with error := true } := by
  simp [scan_step, h, hfm, hl, hx]

lemma scan_step_of_dup {targets : List String} {mode : String} {i : Nat} {nm : String}
    {st : BoneMappingState} {a m : Nat} (h : st.error = false)
    (hfm : get_armature_bone_index_for_psa_bone nm targets mode = some a)
    (hl : dict_lookup a st.armature_to_psa = some m) :
    scan_step targets mode i nm st =
      { st with
        duplicate_mappings := st.duplicate_mappings ++ [(i, a, m)],
        psa_bone_names := st.psa_bone_names ++ [targets.getD a ""] } := by
  simp [scan_step, h, hfm, hl]

lemma scan_step_error_mono {targets : List String} {mode : String} {i : Nat} {nm : String}
    {st : BoneMappingState} (h : (scan_step targets mode i nm st).error = false) :
    st.error = false := by
  cases herr : st.error with
  | false => rfl
  | true => rw [scan_step_of_error herr, herr] at h; exact h

lemma scan_bones_error_mono {targets : List String} {mode : String} :
    ∀ (suf : List String) (i : Nat) (st : BoneMappingState),
      (scan_bones targets mode i suf st).error = false → st.error = false := by
  intro suf
  induction suf with
  | nil => intro i st h; exact h
  | cons nm rest ih =>
    intro i st h
    exact scan_step_error_mono (ih (i + 1) (scan_step targets mode i nm st) h)

lemma scan_step_inv {targets : List String} {mode : String} {processed : List String}
    {st : BoneMappingState} {nm : String}
    (inv : ScanInv targets mode processed st)
    (herr : (scan_step targets mode processed.length nm st).error = false) :
    ScanInv targets mode (processed ++ [nm]) (scan_step targets mode processed.length nm st) := by
  have hst : st.error = false := scan_step_error_mono herr
  have hlen : (processed ++ [nm]).length = processed.length + 1 := by simp
  have hgetD_old : ∀ (j : Nat), j < processed.length →
      (processed ++ [nm]).getD j "" = processed.getD j "" :=
    fun j hj => getD_append_lt processed [nm] "" j hj
  have hgetD_new : (processed ++ [nm]).getD processed.length "" = nm :=
    getD_append_self processed [] nm ""
  cases hfm : get_armature_bone_index_for_psa_bone nm targets mode with
  | none =>
    rw [scan_step_of_nomatch hst hfm]
    refine ⟨?_, ?_, ?_, ?_⟩
    · simp only [List.map_append, List.map_cons, List.map_nil]
      rw [inv.names_eq]
      simp [entry_name, hfm]
    · intro p hp
      obtain ⟨h1, h2⟩ := inv.arm_sound p hp
      exact ⟨by omega, by rw [hgetD_old p.2 h1]; exact h2⟩
    · intro j hj t ht
      rcases Nat.lt_or_ge j processed.length with hlt | hge
      · rw [hgetD_old j hlt] at ht
        exact inv.arm_complete j hlt t ht
      · have hj' : j = processed.length := by
          have := hlen ▸ hj
          omega
        subst hj'
        rw [hgetD_new] at ht
        rw [hfm] at ht
        cases ht
    · intro p hp
      obtain ⟨h1, h2⟩ := inv.psa_sound p hp
      exact ⟨by omega, by rw [hgetD_old p.1 h1]; exact h2⟩
  | some a =>
    cases hl : dict_lookup a st.armature_to_psa with
    | none =>
      cases hx : py_list_index targets nm with
      | none =>
        rw [scan_step_of_value_error hst hfm hl hx] at herr
        simp at herr
      | some e =>
        rw [scan_step_of_claim hst hfm hl hx]
        refine ⟨?_, ?_, ?_, ?_⟩
        · simp only [List.map_append, List.map_cons, List.map_nil]
          rw [inv.names_eq]
          simp [entry_name, hfm]
        · intro p hp
          simp only [List.mem_append, List.mem_singleton] at hp
          rcases hp with hp | hp
          · obtain ⟨h1, h2⟩ := inv.arm_sound p hp
            exact ⟨by omega, by rw [hgetD_old p.2 h1]; exact h2⟩
          · subst hp
            refine ⟨by simp, ?_⟩
            simpa [hgetD_new] using hfm
        · intro j hj t ht
          rcases Nat.lt_or_ge j processed.length with hlt | hge
          · rw [hgetD_old j hlt] at ht
            obtain ⟨s, hs⟩ := inv.arm_complete j hlt t ht
            exact ⟨s, List.mem_append_left _ hs⟩
          · have hj' : j = processed.length := by
              have := hlen ▸ hj
              omega
            subst hj'
            rw [hgetD_new, hfm] at ht
            obtain rfl : t = a := by simpa using ht.symm
            exact ⟨processed.length, List.mem_append_right _ (List.mem_singleton.mpr rfl)⟩
        · intro p hp
          simp only [List.mem_append, List.mem_singleton] at hp
          rcases hp with hp | hp
          · obtain ⟨h1, h2⟩ := inv.psa_sound p hp
            exact ⟨by omega, by rw [hgetD_old p.1 h1]; exact h2⟩
          · subst hp
            refine ⟨by simp, ?_⟩
            simp [hgetD_new, hfm]
    | some m =>
      rw [scan_step_of_dup hst hfm hl]
      refine ⟨?_, ?_, ?_, ?_⟩
      · simp only [List.map_append, List.map_cons, List.map_nil]
        rw [inv.names_eq]
        simp [entry_name, hfm]
      · intro p hp
        obtain ⟨h1, h2⟩ := inv.arm_sound p hp
        exact ⟨by omega, by rw [hgetD_old p.2 h1]; exact h2⟩
      · intro j hj t ht
        rcases Nat.lt_or_ge j processed.length with hlt | hge
        · rw [hgetD_old j hlt] at ht
          exact inv.arm_complete j hlt t ht
        · have hj' : j = processed.length := by
            have := hlen ▸ hj
            omega
          subst hj'
          rw [hgetD_new, hfm] at ht
          obtain rfl : t = a := by simpa using ht.symm
          exact ⟨m, dict_lookup_mem hl⟩
      · intro p hp
        obtain ⟨h1, h2⟩ := inv.psa_sound p hp
        exact ⟨by omega, by rw [hgetD_old p.1 h1]; exact h2⟩

lemma scan_bones_inv {targets : List String} {mode : String} :
    ∀ (suf processed : List String) (st : BoneMappingState),
      ScanInv targets mode processed st →
      (scan_bones targets mode processed.length suf st).error = false →
      ScanInv targets mode (processed ++ suf) (scan_bones targets mode processed.length suf st) := by
  intro suf
  induction suf with
  | nil => intro processed st inv _; simpa using inv
  | cons nm rest ih =>
    intro processed st inv herr
    have hstep : (scan_bones targets mode (processed.length + 1) rest
        (scan_step targets mode processed.length nm st)).error = false := herr
    have hst1err : (scan_step targets mode processed.length nm st).error = false :=
      scan_bones_error_mono rest (processed.length + 1) _ hstep
    have inv1 : ScanInv targets mode (processed ++ [nm])
        (scan_step targets mode processed.length nm st) := scan_step_inv inv hst1err
    have hlen : (processed ++ [nm]).length = processed.length + 1 := by simp
    have := ih (processed ++ [nm]) (scan_step targets mode processed.length nm st) inv1
      (by rw [hlen]; exact hstep)
    rw [hlen] at this
    simpa [List.append_assoc] using this

lemma initial_scan_inv (targets : List String) (mode : String) :
    ScanInv targets mode [] initial_scan_state := by
  refine ⟨rfl, ?_, ?_, ?_⟩
  · intro p hp; simp [initial_scan_state] at hp
  · intro j hj; simp at hj
  · intro p hp; simp [initial_scan_state] at hp

lemma run_scan_inv {sources targets : List String} {mode : String}
    (herr : (run_bone_mapping_scan sources targets mode).error = false) :
    ScanInv targets mode sources (run_bone_mapping_scan sources targets mode) := by
  have := @scan_bones_inv targets mode sources [] initial_scan_state
    (initial_scan_inv targets mode) herr
  simpa using this

lemma entry_name_of_some {targets : List String} {mode nm : String} {t : Nat}
    (hfm : get_armature_bone_index_for_psa_bone nm targets mode = some t) :
    entry_name targets mode nm = targets.getD t "" := by
  simp [entry_name, hfm]

lemma entry_name_of_none {targets : List String} {mode nm : String}
    (hfm : get_armature_bone_index_for_psa_bone nm targets mode = none) :
    entry_name targets mode nm = nm := by
  simp [entry_name, hfm]

lemma mem_psa_names_iff_mapped {targets : List String} {mode : String}
    {processed : List String} {st : BoneMappingState}
    (inv : ScanInv targets mode processed st) {q : String} (hq : q ∈ targets) :
    q ∈ st.psa_bone_names ↔ q ∈ mapped_target_names st targets := by
  constructor
  · intro hmem
    rw [inv.names_eq] at hmem
    obtain ⟨m, hm, hentry⟩ := List.mem_map.mp hmem
    cases hfm : get_armature_bone_index_for_psa_bone m targets mode with
    | none =>
      rw [entry_name_of_none hfm] at hentry
      subst hentry
      exact absurd hq (fm_none_not_mem hfm)
    | some t =>
      rw [entry_name_of_some hfm] at hentry
      obtain ⟨j, hj, hgetD⟩ := mem_exists_getD "" hm
      obtain ⟨s, hs⟩ := inv.arm_complete j hj t (by rw [hgetD]; exact hfm)
      rw [mapped_target_names]
      exact List.mem_map.mpr ⟨(t, s), hs, hentry⟩
  · intro hmem
    rw [mapped_target_names] at hmem
    obtain ⟨p, hp, hval⟩ := List.mem_map.mp hmem
    obtain ⟨h1, h2⟩ := inv.arm_sound p hp
    rw [inv.names_eq]
    refine List.mem_map.mpr ⟨processed.getD p.2 "", getD_mem processed "" p.2 h1, ?_⟩
    rw [entry_name_of_some h2]
    exact hval

lemma mem_missing_iff {sources targets : List String} {mode : String}
    (herr : (run_bone_mapping_scan sources targets mode).error = false) (n : String) :
    n ∈ missing_bone_names (run_bone_mapping_scan sources targets mode) targets ↔
      (n ∈ sources ∧ get_armature_bone_index_for_psa_bone n targets mode = none) := by
  have inv := run_scan_inv herr
  rw [missing_bone_names,
    (List.perm_insertionSort (fun a b => a ≤ b) _).mem_iff, List.mem_dedup, List.mem_filter]
  constructor
  · intro ⟨hmem, hdec⟩
    have hnot : n ∉ targets := of_decide_eq_true hdec
    rw [inv.names_eq] at hmem
    obtain ⟨m, hm, hentry⟩ := List.mem_map.mp hmem
    cases hfm : get_armature_bone_index_for_psa_bone m targets mode with
    | none =>
      rw [entry_name_of_none hfm] at hentry
      subst hentry
      exact ⟨hm, hfm⟩
    | some t =>
      rw [entry_name_of_some hfm] at hentry
      obtain ⟨hlt, -⟩ := fm_some_spec hfm
      exact absurd (hentry ▸ getD_mem targets "" t hlt) hnot
  · intro ⟨hmem, hfm⟩
    refine ⟨?_, decide_eq_true (fm_none_not_mem hfm)⟩
    rw [inv.names_eq]
    exact List.mem_map.mpr ⟨n, hmem, entry_name_of_none hfm⟩

/-- C1: for every `ImportBone` and raw world-space key `(rot, loc)`, the
per-key conversion returns rotation `q.rotateBy(q2.conjugated)` with
`q = postRotation.rotateBy(originalRotation)` and `q2 = postRotation`
rotated by `rot.conjugated` for a root bone and by `rot` (unconjugated)
for a parented bone, and location `(loc - originalLocation)` rotated by
`postRotation.conjugated`, in exactly this composition order. -/
theorem c1_per_key_conversion (import_bone : ImportBone) (rot : Quat) (loc : Vec3) :
    (import_bone.parent = none →
      calculate_fcurve_data import_bone rot loc =
        (Quat.rotateBy (Quat.rotateBy import_bone.post_rotation import_bone.original_rotation)
           (Quat.conjugated (Quat.rotateBy import_bone.post_rotation (Quat.conjugated rot))),
         Vec3.rotateBy (loc - import_bone.original_location)
           (Quat.conjugated import_bone.post_rotation)))
    ∧ (∀ pn, import_bone.parent = some pn →
      calculate_fcurve_data import_bone rot loc =
        (Quat.rotateBy (Quat.rotateBy import_bone.post_rotation import_bone.original_rotation)
           (Quat.conjugated (Quat.rotateBy import_bone.post_rotation rot)),
         Vec3.rotateBy (loc - import_bone.original_location)
           (Quat.conjugated import_bone.post_rotation))) := by
  constructor
  · intro h
    simp [calculate_fcurve_data, h]
  · intro pn h
    simp [calculate_fcurve_data, h]

theorem c1_witness :
    calculate_fcurve_data (⟨none, ⟨1, 2, 3⟩, ⟨0, 1, 0, 0⟩, ⟨0, 0, 1, 0⟩⟩ : ImportBone)
        ⟨0, 0, 0, 1⟩ ⟨4, 5, 6⟩ =
      (Quat.rotateBy (Quat.rotateBy ⟨0, 0, 1, 0⟩ ⟨0, 1, 0, 0⟩)
         (Quat.conjugated (Quat.rotateBy ⟨0, 0, 1, 0⟩ (Quat.conjugated ⟨0, 0, 0, 1⟩))),
       Vec3.rotateBy ((⟨4, 5, 6⟩ : Vec3) - (⟨1, 2, 3⟩ : Vec3)) (Quat.conjugated ⟨0, 0, 1, 0⟩)) :=
  (c1_per_key_conversion ⟨none, ⟨1, 2, 3⟩, ⟨0, 1, 0, 0⟩, ⟨0, 0, 1, 0⟩⟩ ⟨0, 0, 0, 1⟩ ⟨4, 5, 6⟩).1 rfl

/-- C2: the bind-pose calculator derives, for a conversion root, the
armature-space translation and rotation unchanged (in particular for a
root with identity rotation and translation `(0,0,1)` the triple is
`((0,0,1), identity, identity)`); for a parented bone, the parent-relative
translation rotated by the inverse of the parent's rotation and the
conjugate of (inverse of parent's rotation composed with own rotation);
and for every bone the post-rotation is the conjugate of the original
rotation. -/
theorem c2_bind_pose (armature : List ArmatureBone) (psa_bone_names : List String)
    (b : ArmatureBone) :
    ((compute_import_bone_transforms armature psa_bone_names b).2.2 =
      Quat.conjugated (compute_import_bone_transforms armature psa_bone_names b).2.1)
    ∧ (import_bone_link_parent armature psa_bone_names b = none →
        compute_import_bone_transforms armature psa_bone_names b =
          (b.translation, b.rotation, Quat.conjugated b.rotation))
    ∧ (∀ p, import_bone_link_parent armature psa_bone_names b = some p →
        p.rotation.normSq = 1 →
        compute_import_bone_transforms armature psa_bone_names b =
          (Vec3.rotateBy (b.translation - p.translation) (Quat.inverse p.rotation),
           Quat.conjugated (Quat.mul (Quat.inverse p.rotation) b.rotation),
           Quat.conjugated (Quat.conjugated (Quat.mul (Quat.inverse p.rotation) b.rotation))))
    ∧ compute_import_bone_transforms [] []
        (⟨"Root", none, ⟨0, 0, 1⟩, ⟨1, 0, 0, 0⟩⟩ : ArmatureBone) =
        (⟨0, 0, 1⟩, ⟨1, 0, 0, 0⟩, ⟨1, 0, 0, 0⟩) := by
  refine ⟨?_, ?_, ?_, ?_⟩
  · cases h : import_bone_link_parent armature psa_bone_names b <;>
      simp [compute_import_bone_transforms, h, bind_pose_root, bind_pose_non_root]
  · intro h
    simp [compute_import_bone_transforms, h, bind_pose_root]
  · intro p h hn
    rw [Quat.inverse_eq_conjugated hn]
    simp [compute_import_bone_transforms, h, bind_pose_non_root, Quat.rotateBy]
  · decide

theorem c2_witness :
    compute_import_bone_transforms
        [(⟨"Pelvis", none, ⟨1, 0, 0⟩, ⟨0, 0, 1, 0⟩⟩ : ArmatureBone),
         (⟨"Spine", some 0, ⟨1, 2, 3⟩, ⟨1, 0, 0, 0⟩⟩ : ArmatureBone)]
        ["Pelvis", "Spine"] (⟨"Spine", some 0, ⟨1, 2, 3⟩, ⟨1, 0, 0, 0⟩⟩ : ArmatureBone) =
      (Vec3.rotateBy ((⟨1, 2, 3⟩ : Vec3) - (⟨1, 0, 0⟩ : Vec3)) (Quat.inverse ⟨0, 0, 1, 0⟩),
       Quat.conjugated (Quat.mul (Quat.inverse ⟨0, 0, 1, 0⟩) ⟨1, 0, 0, 0⟩),
       Quat.conjugated (Quat.conjugated (Quat.mul (Quat.inverse ⟨0, 0, 1, 0⟩) ⟨1, 0, 0, 0⟩))) :=
  (c2_bind_pose
      [⟨"Pelvis", none, ⟨1, 0, 0⟩, ⟨0, 0, 1, 0⟩⟩, ⟨"Spine", some 0, ⟨1, 2, 3⟩, ⟨1, 0, 0, 0⟩⟩]
      ["Pelvis", "Spine"] ⟨"Spine", some 0, ⟨1, 2, 3⟩, ⟨1, 0, 0, 0⟩⟩).2.2.1
    ⟨"Pelvis", none, ⟨1, 0, 0⟩, ⟨0, 0, 1, 0⟩⟩ (by decide) (by simp [Quat.normSq])

/-- C3: the claim says the scan records the first index matching under the
mode as the source bone's mapping.  The code instead records
`armature_bone_names.index(psa_bone_name)`, an exact-match lookup: on
sources `["spine"]`, targets `["Spine"]` under `CASE_INSENSITIVE` the
first matching index is 0 but the lookup raises `ValueError`, aborting
the import with no mapping recorded; on sources `["Spine"]`, targets
`["spine", "Spine"]` the first matching index is 0 but index 1 is
recorded. -/
theorem c3_recorded_index_diverges :
    get_armature_bone_index_for_psa_bone "spine" ["Spine"] "CASE_INSENSITIVE" = some 0
    ∧ (run_bone_mapping_scan ["spine"] ["Spine"] "CASE_INSENSITIVE").error = true
    ∧ (run_bone_mapping_scan ["spine"] ["Spine"] "CASE_INSENSITIVE").psa_to_armature = []
    ∧ import_bone_mapping_phase ["spine"] ["Spine"] "CASE_INSENSITIVE" = Except.error "ValueError"
    ∧ get_armature_bone_index_for_psa_bone "Spine" ["spine", "Spine"] "CASE_INSENSITIVE" = some 0
    ∧ (run_bone_mapping_scan ["Spine"] ["spine", "Spine"] "CASE_INSENSITIVE").psa_to_armature
        = [(0, 1)] :=
  ⟨by decide, by decide, by decide, rfl, by decide, by decide⟩

/-- C4: the spec's concrete example does hold (first three conjuncts), but
the universal claim fails: on sources `["Spine", "APPLE", "spine"]` and
targets `["Spine", "apple"]` under `CASE_INSENSITIVE`, source 2 matches
target 0, which source 0 already claims, yet no duplicate-mapping warning
is recorded because source 1's exact-index `ValueError` aborted the scan
first. -/
theorem c4_duplicate_warning_lost :
    (run_bone_mapping_scan ["Pelvis", "Spine", "spine"] ["Pelvis", "Spine"]
        "CASE_INSENSITIVE").psa_to_armature = [(0, 0), (1, 1)]
    ∧ (run_bone_mapping_scan ["Pelvis", "Spine", "spine"] ["Pelvis", "Spine"]
        "CASE_INSENSITIVE").duplicate_mappings = [(2, 1, 1)]
    ∧ (run_bone_mapping_scan ["Pelvis", "Spine", "spine"] ["Pelvis", "Spine"]
        "CASE_INSENSITIVE").error = false
    ∧ bones_match "CASE_INSENSITIVE" "Spine" "spine" = true
    ∧ (run_bone_mapping_scan ["Spine", "APPLE", "spine"] ["Spine", "apple"]
        "CASE_INSENSITIVE").armature_to_psa = [(0, 0)]
    ∧ (run_bone_mapping_scan ["Spine", "APPLE", "spine"] ["Spine", "apple"]
        "CASE_INSENSITIVE").duplicate_mappings = []
    ∧ (run_bone_mapping_scan ["Spine", "APPLE", "spine"] ["Spine", "apple"]
        "CASE_INSENSITIVE").error = true :=
  ⟨by decide, by decide, by decide, by decide, by decide, by decide, by decide⟩

/-- C7: frame-rate resolution is an exact case lookup with no fallback
chaining: `SEQUENCE` yields the sequence's stored fps, `CUSTOM` the
caller-supplied constant, `SCENE` the host scene's rate, and every other
source value raises an error and produces no result. -/
theorem c7_fps_resolution :
    (∀ (c q s : ℚ), calculate_target_fps "SEQUENCE" c q s = Except.ok q)
    ∧ (∀ (c q s : ℚ), calculate_target_fps "CUSTOM" c q s = Except.ok c)
    ∧ (∀ (c q s : ℚ), calculate_target_fps "SCENE" c q s = Except.ok s)
    ∧ (∀ (src : String), src ≠ "SEQUENCE" → src ≠ "CUSTOM" → src ≠ "SCENE" →
        ∀ (c q s : ℚ), calculate_target_fps src c q s =
          Except.error (String.append "Unknown FPS source: " src)) := by
  refine ⟨fun c q s => rfl, fun c q s => rfl, fun c q s => rfl, ?_⟩
  intro src h1 h2 h3 c q s
  simp [calculate_target_fps, h1, h2, h3]

theorem c7_witness :
    calculate_target_fps "SEQUENCE" 60 30 24 = Except.ok 30
    ∧ calculate_target_fps "CUSTOM" 60 30 24 = Except.ok 60
    ∧ calculate_target_fps "SCENE" 60 30 24 = Except.ok 24
    ∧ calculate_target_fps "ACTION_METADATA" 60 30 24 =
        Except.error (String.append "Unknown FPS source: " "ACTION_METADATA") :=
  ⟨c7_fps_resolution.1 60 30 24, c7_fps_resolution.2.1 60 30 24,
   c7_fps_resolution.2.2.1 60 30 24,
   c7_fps_resolution.2.2.2 "ACTION_METADATA" (by decide) (by decide) (by decide) 60 30 24⟩

/-- C9: the encode path writes exactly four sections in order — a
header-only marker section with zero size/count and no payload, then the
bone-name, sequence-info and key sections — and every section written
with a record size and record list emits a header declaring that size and
the list's length, followed by exactly the records in list order. -/
theorem c9_export_sections (R : Type) (bone_size sequence_size key_size : Nat)
    (psa : PsaModel R) :
    psa_export bone_size sequence_size key_size psa =
      ([StreamItem.header "ANIMHEAD" 0 0]
        ++ (StreamItem.header "BONENAMES" bone_size psa.bones.length
              :: psa.bones.map StreamItem.datum)
        ++ (StreamItem.header "ANIMINFO" sequence_size psa.sequences.length
              :: psa.sequences.map StreamItem.datum)
        ++ (StreamItem.header "ANIMKEYS" key_size psa.keys.length
              :: psa.keys.map StreamItem.datum))
    ∧ (∀ (name : String) (sz : Nat) (data : List R),
        write_section name (some sz) (some data) =
          StreamItem.header name sz data.length :: data.map StreamItem.datum)
    ∧ (∀ (name : String),
        (write_section name none none : List (StreamItem R)) = [StreamItem.header name 0 0]) := by
  refine ⟨?_, ?_, ?_⟩ <;> simp [psa_export, write_section]

/-- C10: for every mapping mode other than `CASE_INSENSITIVE` — including
unknown values — the bone-index lookup performs exact byte-equal
comparison and never raises: it returns the first byte-equal target index
and `none` when no target name is byte-equal. -/
theorem c10_unknown_mode_is_exact (mode : String) (hmode : mode ≠ "CASE_INSENSITIVE")
    (nm : String) (targets : List String) :
    get_armature_bone_index_for_psa_bone nm targets mode = py_list_index targets nm
    ∧ (get_armature_bone_index_for_psa_bone nm targets mode = none ↔ nm ∉ targets)
    ∧ (∀ i, get_armature_bone_index_for_psa_bone nm targets mode = some i →
        i < targets.length ∧ targets.getD i "" = nm ∧ ∀ j, j < i → targets.getD j "" ≠ nm) := by
  have hbm : ∀ x, bones_match mode x nm = (x == nm) := by
    intro x
    simp [bones_match, hmode]
  refine ⟨?_, ⟨fm_none_not_mem, ?_⟩, ?_⟩
  · rw [get_armature_bone_index_for_psa_bone, py_list_index]
    exact find_idx_from_congr hbm targets 0
  · intro hnot
    rw [get_armature_bone_index_for_psa_bone, find_idx_from_eq_none]
    intro x hx
    rw [hbm]
    exact beq_eq_false_iff_ne.mpr (fun he => hnot (he ▸ hx))
  · intro i hi
    obtain ⟨h1, h2, h3⟩ := fm_some_spec hi
    rw [hbm] at h2
    refine ⟨h1, by simpa using h2, ?_⟩
    intro j hj
    have hf := h3 j hj
    rw [hbm] at hf
    simpa using hf

theorem c10_witness :
    get_armature_bone_index_for_psa_bone "A" ["B", "A"] "FOO" = py_list_index ["B", "A"] "A"
    ∧ (get_armature_bone_index_for_psa_bone "A" ["B", "A"] "FOO" = none ↔
        "A" ∉ (["B", "A"] : List String))
    ∧ (∀ i, get_armature_bone_index_for_psa_bone "A" ["B", "A"] "FOO" = some i →
        i < (["B", "A"] : List String).length ∧ (["B", "A"] : List String).getD i "" = "A" ∧
          ∀ j, j < i → (["B", "A"] : List String).getD j "" ≠ "A") :=
  c10_unknown_mode_is_exact "FOO" (by decide) "A" ["B", "A"]

lemma zip_getElem_opt {α β : Type} (l1 : List α) (l2 : List β) (i : Nat) :
    (l1.zip l2)[i]? =
      match l1[i]?, l2[i]? with
      | some a, some b => some (a, b)
      | _, _ => none := by
  induction l1 generalizing l2 i with
  | nil =>
    rcases h : l2[i]? with _ | v <;> simp [h]
  | cons a r ih =>
    cases l2 with
    | nil =>
      rcases h : (a :: r)[i]? with _ | v <;> simp [h]
    | cons b r2 =>
      cases i with
      | zero => simp
      | succ k => simpa using ih r2 k

/-- C8: for every frame index `i` and every bone, the generated keyframe
timestamp is `i * (target_fps / sequence_fps)` while the keyframe values
are unaffected by retiming; in particular stored fps 30 with `CUSTOM`
target 60 gives dilation factor 2 and frame index 5 the timestamp 10. -/
theorem c8_keyframe_retiming (frame_count : Nat) (target_fps sequence_fps : ℚ)
    (values : List ℚ) (i : Nat) (hi : i < frame_count) (hv : values.length = frame_count) :
    (fcurve_keyframe_points frame_count (keyframe_time_dilation target_fps sequence_fps)
        values)[i]? =
      some (((i : Nat) : ℚ) * (target_fps / sequence_fps), values.getD i 0)
    ∧ (fcurve_keyframe_points frame_count (keyframe_time_dilation target_fps sequence_fps)
        values).map Prod.snd = values
    ∧ calculate_target_fps "CUSTOM" 60 30 24 = Except.ok 60
    ∧ keyframe_time_dilation 60 30 = 2
    ∧ (keyframe_times 6 (keyframe_time_dilation 60 30))[5]? = some 10 := by
  have hiv : i < values.length := by omega
  refine ⟨?_, ?_, rfl, ?_, ?_⟩
  · rw [fcurve_keyframe_points, zip_getElem_opt]
    have h1 : (keyframe_times frame_count (keyframe_time_dilation target_fps sequence_fps))[i]? =
        some (((i : Nat) : ℚ) * (target_fps / sequence_fps)) := by
      rw [keyframe_times, List.getElem?_map, List.getElem?_range hi]
      rfl
    have h2 : values[i]? = some (values.getD i 0) := by
      rw [List.getElem?_eq_getElem hiv, List.getD_eq_getElem?_getD,
        List.getElem?_eq_getElem hiv]
      rfl
    rw [h1, h2]
  · rw [fcurve_keyframe_points]
    apply List.map_snd_zip
    rw [keyframe_times, List.length_map, List.length_range, hv]
  · rw [keyframe_time_dilation]
    norm_num
  · have h5 : (5 : Nat) < 6 := by norm_num
    rw [keyframe_times, List.getElem?_map, List.getElem?_range h5, Option.map_some']
    rw [keyframe_time_dilation]
    norm_num

theorem c8_witness :
    (fcurve_keyframe_points 6 (keyframe_time_dilation 60 30) [3, 1, 4, 1, 5, 9])[5]? =
      some (((5 : Nat) : ℚ) * (60 / 30), ([3, 1, 4, 1, 5, 9] : List ℚ).getD 5 0)
    ∧ (fcurve_keyframe_points 6 (keyframe_time_dilation 60 30)
        [3, 1, 4, 1, 5, 9]).map Prod.snd = [3, 1, 4, 1, 5, 9]
    ∧ calculate_target_fps "CUSTOM" 60 30 24 = Except.ok 60
    ∧ keyframe_time_dilation 60 30 = 2
    ∧ (keyframe_times 6 (keyframe_time_dilation 60 30))[5]? = some 10 :=
  c8_keyframe_retiming 6 60 30 [3, 1, 4, 1, 5, 9] 5 (by decide) rfl

/-- C5: after an error-free bone-mapping scan, exactly the source bone
names that match no target name under the mode form the missing-bones
warning, as a sorted, duplicate-free list containing no target name;
the warnings are non-fatal — the mapping phase still returns a result
consisting of the duplicate warnings followed by at most one
missing-bones warning. -/
theorem c5_missing_bones (sources targets : List String) (mode : String)
    (herr : (run_bone_mapping_scan sources targets mode).error = false) :
    import_bone_mapping_phase sources targets mode =
      Except.ok (run_bone_mapping_scan sources targets mode,
        build_mapping_warnings (run_bone_mapping_scan sources targets mode) targets)
    ∧ (∀ n, n ∈ missing_bone_names (run_bone_mapping_scan sources targets mode) targets ↔
        (n ∈ sources ∧ get_armature_bone_index_for_psa_bone n targets mode = none))
    ∧ List.Sorted (fun a b => a ≤ b)
        (missing_bone_names (run_bone_mapping_scan sources targets mode) targets)
    ∧ (missing_bone_names (run_bone_mapping_scan sources targets mode) targets).Nodup
    ∧ (∀ n ∈ missing_bone_names (run_bone_mapping_scan sources targets mode) targets,
        n ∉ targets)
    ∧ build_mapping_warnings (run_bone_mapping_scan sources targets mode) targets =
        ((run_bone_mapping_scan sources targets mode).duplicate_mappings.map
            (fun p => MappingWarning.duplicate p.1 p.2.1 p.2.2))
          ++ (if missing_bone_names (run_bone_mapping_scan sources targets mode) targets = []
              then []
              else [MappingWarning.missingBones
                      (missing_bone_names (run_bone_mapping_scan sources targets mode) targets)]) := by
  refine ⟨?_, mem_missing_iff herr, ?_, ?_, ?_, rfl⟩
  · simp [import_bone_mapping_phase, herr]
  · exact List.sorted_insertionSort _ _
  · exact ((List.perm_insertionSort _ _).nodup_iff).mpr (List.nodup_dedup _)
  · intro n hn
    exact fm_none_not_mem ((mem_missing_iff herr n).mp hn).2

theorem c5_witness :
    import_bone_mapping_phase ["Thigh", "Zeta"] ["Thigh"] "EXACT" =
      Except.ok (run_bone_mapping_scan ["Thigh", "Zeta"] ["Thigh"] "EXACT",
        build_mapping_warnings (run_bone_mapping_scan ["Thigh", "Zeta"] ["Thigh"] "EXACT")
          ["Thigh"])
    ∧ (∀ n, n ∈ missing_bone_names (run_bone_mapping_scan ["Thigh", "Zeta"] ["Thigh"] "EXACT")
          ["Thigh"] ↔
        (n ∈ (["Thigh", "Zeta"] : List String) ∧
          get_armature_bone_index_for_psa_bone n ["Thigh"] "EXACT" = none))
    ∧ List.Sorted (fun a b => a ≤ b)
        (missing_bone_names (run_bone_mapping_scan ["Thigh", "Zeta"] ["Thigh"] "EXACT")
          ["Thigh"])
    ∧ (missing_bone_names (run_bone_mapping_scan ["Thigh", "Zeta"] ["Thigh"] "EXACT")
        ["Thigh"]).Nodup
    ∧ (∀ n ∈ missing_bone_names (run_bone_mapping_scan ["Thigh", "Zeta"] ["Thigh"] "EXACT")
          ["Thigh"], n ∉ (["Thigh"] : List String))
    ∧ build_mapping_warnings (run_bone_mapping_scan ["Thigh", "Zeta"] ["Thigh"] "EXACT")
          ["Thigh"] =
        ((run_bone_mapping_scan ["Thigh", "Zeta"] ["Thigh"] "EXACT").duplicate_mappings.map
            (fun p => MappingWarning.duplicate p.1 p.2.1 p.2.2))
          ++ (if missing_bone_names (run_bone_mapping_scan ["Thigh", "Zeta"] ["Thigh"] "EXACT")
                  ["Thigh"] = []
              then []
              else [MappingWarning.missingBones
                      (missing_bone_names
                        (run_bone_mapping_scan ["Thigh", "Zeta"] ["Thigh"] "EXACT")
                        ["Thigh"])]) :=
  c5_missing_bones ["Thigh", "Zeta"] ["Thigh"] "EXACT" (by decide)

/-- C6: for every mapped bone, the `ImportBone` parent link is set if and
only if the corresponding target bone has a parent and that parent is
itself one of the mapped target bones (compared by name); when the link
is absent the bone is treated as a conversion root — its bind-pose triple
is computed by the root branch even though the target bone may have a
parent outside the mapped set. -/
theorem c6_parent_link (sources : List String) (armature : List ArmatureBone) (mode : String)
    (hwf : ∀ b ∈ armature, ∀ pi, b.parent = some pi → pi < armature.length)
    (herr : (run_bone_mapping_scan sources (armature.map ArmatureBone.name) mode).error = false)
    (jt : Nat × Nat)
    (hmap : jt ∈ (run_bone_mapping_scan sources (armature.map ArmatureBone.name) mode).psa_to_armature)
    (b : ArmatureBone)
    (hfind : armature.find? (fun x => x.name ==
        (run_bone_mapping_scan sources (armature.map ArmatureBone.name)
          mode).psa_bone_names.getD jt.1 "") = some b) :
    ((import_bone_link_parent armature
        (run_bone_mapping_scan sources (armature.map ArmatureBone.name) mode).psa_bone_names
        b).isSome = true ↔
      (∃ pi, b.parent = some pi ∧
        (armature.getD pi default).name ∈
          mapped_target_names (run_bone_mapping_scan sources (armature.map ArmatureBone.name) mode)
            (armature.map ArmatureBone.name)))
    ∧ (import_bone_link_parent armature
          (run_bone_mapping_scan sources (armature.map ArmatureBone.name) mode).psa_bone_names
          b = none →
        compute_import_bone_transforms armature
            (run_bone_mapping_scan sources (armature.map ArmatureBone.name) mode).psa_bone_names
            b =
          (b.translation, b.rotation, Quat.conjugated b.rotation)) := by
  have inv := run_scan_inv herr
  have hbmem : b ∈ armature := List.mem_of_find?_eq_some hfind
  cases hb : b.parent with
  | none =>
    constructor
    · simp [import_bone_link_parent, hb]
    · intro _
      simp [compute_import_bone_transforms, import_bone_link_parent, hb, bind_pose_root]
  | some pi =>
    have hpi : pi < armature.length := hwf b hbmem pi hb
    have hname_mem : (armature.getD pi default).name ∈ armature.map ArmatureBone.name := by
      rw [← getD_map_name armature pi hpi]
      exact getD_mem _ "" pi (by simpa using hpi)
    have hiff := mem_psa_names_iff_mapped inv hname_mem
    by_cases hmem : (armature.getD pi default).name ∈
        (run_bone_mapping_scan sources (armature.map ArmatureBone.name) mode).psa_bone_names
    · constructor
      · simp only [import_bone_link_parent, hb, if_pos hmem, Option.isSome_some, true_iff]
        exact ⟨pi, rfl, hiff.mp hmem⟩
      · intro hnone
        have hlink : import_bone_link_parent armature
            (run_bone_mapping_scan sources (armature.map ArmatureBone.name) mode).psa_bone_names
            b = some (armature.getD pi default) := by
          simp only [import_bone_link_parent, hb, if_pos hmem]
        rw [hlink] at hnone
        simp at hnone
    · constructor
      · simp only [import_bone_link_parent, hb, if_neg hmem, Option.isSome_none,
          Bool.false_eq_true, false_iff]
        rintro ⟨pi2, hpi2, hmem2⟩
        obtain rfl : pi2 = pi := (Option.some.inj hpi2).symm
        exact hmem (hiff.mpr hmem2)
      · intro _
        simp only [compute_import_bone_transforms, import_bone_link_parent, hb, if_neg hmem,
          bind_pose_root]

theorem c6_witness :
    ((import_bone_link_parent
        [(⟨"RootB", none, ⟨0, 0, 0⟩, ⟨1, 0, 0, 0⟩⟩ : ArmatureBone),
         (⟨"ChildB", some 0, ⟨0, 0, 1⟩, ⟨1, 0, 0, 0⟩⟩ : ArmatureBone)]
        (run_bone_mapping_scan ["RootB", "ChildB"]
          ([(⟨"RootB", none, ⟨0, 0, 0⟩, ⟨1, 0, 0, 0⟩⟩ : ArmatureBone),
            (⟨"ChildB", some 0, ⟨0, 0, 1⟩, ⟨1, 0, 0, 0⟩⟩ : ArmatureBone)].map ArmatureBone.name)
          "EXACT").psa_bone_names
        (⟨"ChildB", some 0, ⟨0, 0, 1⟩, ⟨1, 0, 0, 0⟩⟩ : ArmatureBone)).isSome = true ↔
      (∃ pi, (⟨"ChildB", some 0, ⟨0, 0, 1⟩, ⟨1, 0, 0, 0⟩⟩ : ArmatureBone).parent = some pi ∧
        ([(⟨"RootB", none, ⟨0, 0, 0⟩, ⟨1, 0, 0, 0⟩⟩ : ArmatureBone),
          (⟨"ChildB", some 0, ⟨0, 0, 1⟩, ⟨1, 0, 0, 0⟩⟩ : ArmatureBone)].getD pi default).name ∈
          mapped_target_names
            (run_bone_mapping_scan ["RootB", "ChildB"]
              ([(⟨"RootB", none, ⟨0, 0, 0⟩, ⟨1, 0, 0, 0⟩⟩ : ArmatureBone),
                (⟨"ChildB", some 0, ⟨0, 0, 1⟩, ⟨1, 0, 0, 0⟩⟩ : ArmatureBone)].map ArmatureBone.name)
              "EXACT")
            ([(⟨"RootB", none, ⟨0, 0, 0⟩, ⟨1, 0, 0, 0⟩⟩ : ArmatureBone),
              (⟨"ChildB", some 0, ⟨0, 0, 1⟩, ⟨1, 0, 0, 0⟩⟩ : ArmatureBone)].map ArmatureBone.name)))
    ∧ (import_bone_link_parent
          [(⟨"RootB", none, ⟨0, 0, 0⟩, ⟨1, 0, 0, 0⟩⟩ : ArmatureBone),
           (⟨"ChildB", some 0, ⟨0, 0, 1⟩, ⟨1, 0, 0, 0⟩⟩ : ArmatureBone)]
          (run_bone_mapping_scan ["RootB", "ChildB"]
            ([(⟨"RootB", none, ⟨0, 0, 0⟩, ⟨1, 0, 0, 0⟩⟩ : ArmatureBone),
              (⟨"ChildB", some 0, ⟨0, 0, 1⟩, ⟨1, 0, 0, 0⟩⟩ : ArmatureBone)].map ArmatureBone.name)
            "EXACT").psa_bone_names
          (⟨"ChildB", some 0, ⟨0, 0, 1⟩, ⟨1, 0, 0, 0⟩⟩ : ArmatureBone) = none →
        compute_import_bone_transforms
            [(⟨"RootB", none, ⟨0, 0, 0⟩, ⟨1, 0, 0, 0⟩⟩ : ArmatureBone),
             (⟨"ChildB", some 0, ⟨0, 0, 1⟩, ⟨1, 0, 0, 0⟩⟩ : ArmatureBone)]
            (run_bone_mapping_scan ["RootB", "ChildB"]
              ([(⟨"RootB", none, ⟨0, 0, 0⟩, ⟨1, 0, 0, 0⟩⟩ : ArmatureBone),
                (⟨"ChildB", some 0, ⟨0, 0, 1⟩, ⟨1, 0, 0, 0⟩⟩ : ArmatureBone)].map ArmatureBone.name)
              "EXACT").psa_bone_names
            (⟨"ChildB", some 0, ⟨0, 0, 1⟩, ⟨1, 0, 0, 0⟩⟩ : ArmatureBone) =
          ((⟨"ChildB", some 0, ⟨0, 0, 1⟩, ⟨1, 0, 0, 0⟩⟩ : ArmatureBone).translation,
           (⟨"ChildB", some 0, ⟨0, 0, 1⟩, ⟨1, 0, 0, 0⟩⟩ : ArmatureBone).rotation,
           Quat.conjugated (⟨"ChildB", some 0, ⟨0, 0, 1⟩, ⟨1, 0, 0, 0⟩⟩ : ArmatureBone).rotation)) :=
  c6_parent_link ["RootB", "ChildB"]
    [⟨"RootB", none, ⟨0, 0, 0⟩, ⟨1, 0, 0, 0⟩⟩, ⟨"ChildB", some 0, ⟨0, 0, 1⟩, ⟨1, 0, 0, 0⟩⟩]
    "EXACT"
    (by
      intro b hb pi hpi
      simp only [List.mem_cons, List.not_mem_nil, or_false] at hb
      rcases hb with rfl | rfl
      · simp at hpi
      · obtain rfl : pi = 0 := by simpa using hpi.symm
        decide)
    (by decide) (1, 1) (by decide)
    ⟨"ChildB", some 0, ⟨0, 0, 1⟩, ⟨1, 0, 0, 0⟩⟩ (by decide)
